import Mathlib

/-!
Verification of the zimsoap client (src/zimsoap/client.py) against its
natural-language specification. The Python code is shallowly embedded:
datetime instants are modelled as integers, exceptions as an explicit
error type in `Except`, and the SOAP transport as an oracle mapping each
named request to a list of XML response elements. Every issued request is
logged in the client state so that call-sequencing claims can be stated.
-/

/-- Errors raised by the client. `shouldAuthenticateFirst` models the
`ShouldAuthenticateFirst` exception class of client.py; `attributeError`
and `valueError` model the Python builtins; `unexpectedResponseShape`
models the error raised by single-result extraction on a malformed
response. -/
inductive ZError where
  | shouldAuthenticateFirst
  | attributeError
  | valueError (msg : String)
  | unexpectedResponseShape
  deriving DecidableEq, Repr

/-- A parsed XML element: tag name, attribute list and text content. -/
structure XmlElement where
  tag : String := ""
  attrs : List (String × String) := []
  text : String := ""
  deriving DecidableEq, Repr

/-- Association-list lookup of an XML attribute by name. -/
def getAttr (k : String) : List (String × String) → Option String
  | [] => none
  | (k', v) :: rest => if k' = k then some v else getAttr k rest

/-- Modelled from the spec: `utils.extractResponses` (the utils module is
not under src/). List extraction "simply yields however many elements are
present, including zero". -/
def extractResponses (resp : List XmlElement) : List XmlElement := resp

/-- Modelled from the spec: `utils.extractSingleResponse` (the utils
module is not under src/). Single-result extraction succeeds exactly on a
one-element response; "zero or multiple elements where exactly one was
expected" is the unexpected-response-shape error. -/
def extractSingleResponse (resp : List XmlElement) : Except ZError XmlElement :=
  match resp with
  | [x] => .ok x
  | _ => .error .unexpectedResponseShape

/-- Modelled after Python `int(...)` on a string: an optional minus sign
followed by at least one decimal digit; anything else raises
`ValueError`. Written structurally over the character list so that it
evaluates by kernel reduction. -/
def digitVal (c : Char) : Option Nat :=
  if '0' ≤ c ∧ c ≤ '9' then some (c.toNat - '0'.toNat) else none

/-- Accumulate decimal digits left to right; any non-digit fails. -/
def parseNatAux : List Char → Nat → Option Nat
  | [], acc => some acc
  | c :: cs, acc =>
      match digitVal c with
      | none => none
      | some d => parseNatAux cs (acc * 10 + d)

/-- Python `int(s)` for a decimal string `s`. -/
def pyInt (s : String) : Option Int :=
  match s.data with
  | [] => none
  | '-' :: [] => none
  | '-' :: c :: cs => (parseNatAux (c :: cs) 0).map (fun n => -(n : Int))
  | cs => (parseNatAux cs 0).map (fun n => (n : Int))

/-- The state of `ZimbraAPISession`: `authToken` is `none` for the Python
`None` initial value, `some s` once assigned a string; `end_date` is
`none` while the attribute has never been assigned (reading it then is an
`AttributeError`) and `some d` once `login` has set it. -/
structure ZimbraAPISession where
  authToken : Option String
  end_date : Option Int
  deriving DecidableEq, Repr

/-- `ZimbraAPISession.__init__`: stores `authToken = None`; `end_date` is
left unassigned. -/
def ZimbraAPISession.init : ZimbraAPISession :=
  { authToken := none, end_date := none }

/-- Python truthiness test `not self.authToken`: true when the token is
`None` or the empty string. -/
def tokenFalsy (t : Option String) : Bool :=
  match t with
  | none => true
  | some s => s = ""

/-- `ZimbraAPISession.is_logged_in`, with the current instant passed
explicitly in place of `datetime.datetime.now()`. A falsy token returns
`False` before `end_date` is ever read; otherwise the result is
`self.end_date >= now`, and reading a never-assigned `end_date` raises
`AttributeError`. -/
def ZimbraAPISession.is_logged_in (s : ZimbraAPISession) (now : Int) :
    Except ZError Bool :=
  if tokenFalsy s.authToken then .ok false
  else
    match s.end_date with
    | none => .error .attributeError
    | some d => .ok (decide (now ≤ d))

/-- The `<context/>` element built by `get_context_header`: namespace
attribute, `authToken` child with its `xsi:type`, and a null
`sessionId` child. -/
structure ContextElement where
  xmlns : String
  authToken : String
  authTokenXsiType : String
  sessionIdXsiNull : String
  deriving DecidableEq, Repr

/-- `ZimbraAPISession.get_context_header`: raises
`ShouldAuthenticateFirst` when `is_logged_in()` is false (propagating any
error `is_logged_in` itself raises), otherwise builds the context element
carrying the stored token. The `getD ""` default is unreachable: a true
`is_logged_in` forces `authToken = some tok` with `tok ≠ ""`. -/
def ZimbraAPISession.get_context_header (s : ZimbraAPISession) (now : Int) :
    Except ZError ContextElement :=
  match s.is_logged_in now with
  | .error e => .error e
  | .ok false => .error .shouldAuthenticateFirst
  | .ok true =>
      .ok { xmlns := "urn:zimbra"
            authToken := s.authToken.getD ""
            authTokenXsiType := "xsd:string"
            sessionIdXsiNull := "1" }

/-- `ZimbraAPISession.login`, with the login instant passed explicitly and
the transport outcome of `AuthRequest` passed as a value: a raised
transport error propagates unchanged; a response is destructured by
`extractResponses` into exactly the token element and the lifetime
element (any other shape is a Python unpacking `ValueError`), the
lifetime text is parsed by `int(...)`, the token is stored as its string
content, and `end_date` becomes the login instant plus the lifetime. -/
def ZimbraAPISession.login (s : ZimbraAPISession) (now : Int)
    (authResp : Except ZError (List XmlElement)) :
    Except ZError ZimbraAPISession :=
  match authResp with
  | .error e => .error e
  | .ok resp =>
      match extractResponses resp with
      | [tokEl, lifeEl] =>
          match pyInt lifeEl.text with
          | none => .error (.valueError "invalid literal for int")
          | some n =>
              .ok { s with authToken := some tokEl.text, end_date := some (now + n) }
      | _ => .error (.valueError "unpacking mismatch")

/-- Modelled from the spec: a `zobjects.DistributionList` record (the
zobjects module is not under src/): a flat record identified "either by
id or by name"; a missing field is an absent attribute, so reading it
raises `AttributeError`. -/
structure DistributionList where
  id : Option String := none
  name : Option String := none
  deriving DecidableEq, Repr

/-- Modelled from the spec: `zobjects.DistributionList.from_xml` maps the
server's named fields of one response fragment into the record. -/
def DistributionList.from_xml (x : XmlElement) : DistributionList :=
  { id := getAttr "id" x.attrs, name := getAttr "name" x.attrs }

/-- Modelled from the spec: a `zobjects.Domain` record, a flat mapping
from the server's named fields. -/
structure Domain where
  attrs : List (String × String)
  deriving DecidableEq, Repr

/-- Modelled from the spec: `zobjects.Domain.from_xml`. -/
def Domain.from_xml (x : XmlElement) : Domain :=
  { attrs := x.attrs }

/-- Modelled from the spec: a `zobjects.Mailbox` record, a flat mapping
from the server's named fields. -/
structure Mailbox where
  attrs : List (String × String)
  deriving DecidableEq, Repr

/-- Modelled from the spec: `zobjects.Mailbox.from_xml`. -/
def Mailbox.from_xml (x : XmlElement) : Mailbox :=
  { attrs := x.attrs }

/-- Modelled from the spec: a `zobjects.ClassOfService` record. -/
structure ClassOfService where
  attrs : List (String × String)
  deriving DecidableEq, Repr

/-- Modelled from the spec: `zobjects.ClassOfService.from_xml`. -/
def ClassOfService.from_xml (x : XmlElement) : ClassOfService :=
  { attrs := x.attrs }

/-- The named SOAP requests the client can issue, each carrying the
selector or attribute data the Python call sends. -/
inductive Request where
  | auth (name password : String)
  | getAllDomains
  | getMailboxStats
  | countAccount (sel : XmlElement)
  | getAllMailboxes
  | getMailbox (accountId : String)
  | getDistributionList (sel : DistributionList)
  | createDistributionList (name dynamic : String)
  | deleteDistributionList (id : String)
  deriving DecidableEq, Repr

/-- The SOAP transport, abstracted as an oracle giving the list of
response elements for each request. -/
structure Transport where
  oracle : Request → List XmlElement

/-- The state of a `ZimbraAdminClient`: its session, the `context` header
stored under `self['context']` by `login`, and the log of every request
issued so far (in order). -/
structure ClientState where
  session : ZimbraAPISession
  context : Option ContextElement
  calls : List Request
  deriving Repr

/-- A freshly constructed `ZimbraAdminClient`: fresh session, no context
header, no calls issued. -/
def ClientState.init : ClientState :=
  { session := ZimbraAPISession.init, context := none, calls := [] }

/-- Issue one request over the transport: returns the oracle's response
and appends the request to the call log. -/
def issue (t : Transport) (c : ClientState) (r : Request) :
    List XmlElement × ClientState :=
  (t.oracle r, { c with calls := c.calls ++ [r] })

/-- `ZimbraAdminClient.get_all_domains`: one request, list extraction,
one `Domain` record per response element. -/
def ZimbraAdminClient.get_all_domains (t : Transport) (c : ClientState) :
    Except ZError (List Domain) × ClientState :=
  let (resp, c') := issue t c .getAllDomains
  (.ok ((extractResponses resp).map Domain.from_xml), c')

/-- Parse every attribute value with Python `int(...)`; any non-numeric
value is a `ValueError`. -/
def mapAttrsInt : List (String × String) → Option (List (String × Int))
  | [] => some []
  | (k, v) :: rest =>
      match pyInt v, mapAttrsInt rest with
      | some n, some l => some ((k, n) :: l)
      | _, _ => none

/-- `ZimbraAdminClient.get_mailbox_stats`: one request, single-result
extraction, then each attribute of the stats element parsed to an
integer. -/
def ZimbraAdminClient.get_mailbox_stats (t : Transport) (c : ClientState) :
    Except ZError (List (String × Int)) × ClientState :=
  let (resp, c') := issue t c .getMailboxStats
  match extractSingleResponse resp with
  | .error e => (.error e, c')
  | .ok x =>
      match mapAttrsInt x.attrs with
      | none => (.error (.valueError "invalid literal for int"), c')
      | some l => (.ok l, c')

/-- Build the (cos record, count) pairs of `count_account`, where the
count is Python `int(i)` on the element text. -/
def mapCosPairs : List XmlElement → Option (List (ClassOfService × Int))
  | [] => some []
  | x :: rest =>
      match pyInt x.text, mapCosPairs rest with
      | some n, some l => some ((ClassOfService.from_xml x, n) :: l)
      | _, _ => none

/-- `ZimbraAdminClient.count_account`: one request carrying the domain
selector, list extraction, one (ClassOfService, count) pair per
element. -/
def ZimbraAdminClient.count_account (t : Transport) (c : ClientState)
    (sel : XmlElement) :
    Except ZError (List (ClassOfService × Int)) × ClientState :=
  let (resp, c') := issue t c (.countAccount sel)
  match mapCosPairs (extractResponses resp) with
  | none => (.error (.valueError "invalid literal for int"), c')
  | some l => (.ok l, c')

/-- `ZimbraAdminClient.get_all_mailboxes`: one request, list extraction,
one `Mailbox` record per response element. -/
def ZimbraAdminClient.get_all_mailboxes (t : Transport) (c : ClientState) :
    Except ZError (List Mailbox) × ClientState :=
  let (resp, c') := issue t c .getAllMailboxes
  (.ok ((extractResponses resp).map Mailbox.from_xml), c')

/-- `ZimbraAdminClient.get_account_mailbox`: one request carrying the
account id, single-result extraction, one `Mailbox` record. -/
def ZimbraAdminClient.get_account_mailbox (t : Transport) (c : ClientState)
    (account_id : String) :
    Except ZError Mailbox × ClientState :=
  let (resp, c') := issue t c (.getMailbox account_id)
  match extractSingleResponse resp with
  | .error e => (.error e, c')
  | .ok x => (.ok (Mailbox.from_xml x), c')

/-- `ZimbraAdminClient.get_distribution_list`: one request carrying the
description as selector, single-result extraction, one
`DistributionList` record. -/
def ZimbraAdminClient.get_distribution_list (t : Transport) (c : ClientState)
    (dl_description : DistributionList) :
    Except ZError DistributionList × ClientState :=
  let (resp, c') := issue t c (.getDistributionList dl_description)
  match extractSingleResponse resp with
  | .error e => (.error e, c')
  | .ok x => (.ok (DistributionList.from_xml x), c')

/-- `ZimbraAdminClient.create_distribution_list`: one request carrying
the name and `str(dynamic)`, single-result extraction, one
`DistributionList` record. -/
def ZimbraAdminClient.create_distribution_list (t : Transport) (c : ClientState)
    (nm : String) (dynamic : Int) :
    Except ZError DistributionList × ClientState :=
  let (resp, c') := issue t c (.createDistributionList nm (toString dynamic))
  match extractSingleResponse resp with
  | .error e => (.error e, c')
  | .ok x => (.ok (DistributionList.from_xml x), c')

/-- `ZimbraAdminClient.delete_distribution_list`: reading `dl.id`
succeeds (`some i`) or raises `AttributeError` (`none`), in which case
the list is fetched first with `get_distribution_list` and its `id` read;
an `AttributeError` from that inner attempt becomes
`ValueError(\x27Unqualified DistributionList\x27)`, any other error from the
lookup propagates, and on success the delete request is issued with the
resolved id. -/
def ZimbraAdminClient.delete_distribution_list (t : Transport) (c : ClientState)
    (dl : DistributionList) :
    Except ZError Unit × ClientState :=
  match dl.id with
  | some i =>
      let (_, c') := issue t c (.deleteDistributionList i)
      (.ok (), c')
  | none =>
      let (res, c') := ZimbraAdminClient.get_distribution_list t c dl
      match res with
      | .error .attributeError =>
          (.error (.valueError "Unqualified DistributionList"), c')
      | .error e => (.error e, c')
      | .ok fetched =>
          match fetched.id with
          | none => (.error (.valueError "Unqualified DistributionList"), c')
          | some i =>
              let (_, c'') := issue t c' (.deleteDistributionList i)
              (.ok (), c'')

/-- `ZimbraAdminClient.login`: delegates to the session login (issuing
the `AuthRequest`), then stores the session's context header under
`self['context']`. -/
def ZimbraAdminClient.login (t : Transport) (c : ClientState)
    (admin_user admin_password : String) (now : Int) :
    Except ZError Unit × ClientState :=
  let (resp, c₁) := issue t c (.auth admin_user admin_password)
  match ZimbraAPISession.login c₁.session now (.ok resp) with
  | .error e => (.error e, c₁)
  | .ok s' =>
      let c₂ := { c₁ with session := s' }
      match s'.get_context_header now with
      | .error e => (.error e, c₂)
      | .ok ctx => (.ok (), { c₂ with context := some ctx })

/-- C10: for every session whose `authToken` is `None` (no successful
login has occurred), `is_logged_in()` returns `False` without raising,
whatever the state of the never-assigned `end_date` attribute: the
expiry comparison is short-circuited when no token is present. -/
theorem c10_no_token_returns_false (ed : Option Int) (now : Int) :
    ZimbraAPISession.is_logged_in ⟨none, ed⟩ now = .ok false := rfl

/-- C4: on a freshly constructed session (no login has occurred),
`get_context_header` fails with `ShouldAuthenticateFirst`, at every
instant. -/
theorem c4_fresh_session_context_fails (now : Int) :
    ZimbraAPISession.init.get_context_header now =
      .error .shouldAuthenticateFirst := rfl

/-- C3: when the `AuthRequest` exchange succeeds with a token element and
a lifetime element whose text parses to the integer `n`, `login` stores
the token string in `authToken` and sets `end_date` to the login instant
plus `n` seconds; when the transport raises, `login` propagates that
error unchanged (no retry: the definition issues a single exchange). -/
theorem c3_login_stores_token_and_expiry (s : ZimbraAPISession) (now : Int)
    (tokEl lifeEl : XmlElement) (n : Int) (e : ZError)
    (hlife : pyInt lifeEl.text = some n) :
    ZimbraAPISession.login s now (.ok [tokEl, lifeEl]) =
      .ok { s with authToken := some tokEl.text, end_date := some (now + n) } ∧
    ZimbraAPISession.login s now (.error e) = .error e := by
  refine ⟨?_, rfl⟩
  simp only [ZimbraAPISession.login, extractResponses, hlife]

/-- Witness for `c3_login_stores_token_and_expiry` at a concrete
exchange: token text "tt", lifetime text "60", login instant 100. -/
theorem c3_login_stores_token_and_expiry_witness :
    ZimbraAPISession.login ⟨none, none⟩ 100
        (.ok [{ text := "tt" }, { text := "60" }]) =
      .ok ⟨some "tt", some 160⟩ ∧
    ZimbraAPISession.login ⟨none, none⟩ 100 (.error .attributeError) =
      .error .attributeError :=
  c3_login_stores_token_and_expiry ⟨none, none⟩ 100
    { text := "tt" } { text := "60" } 60 .attributeError rfl

/-- C2: after a successful login at instant `T0` whose lifetime element
parses to `L` (and whose token is a nonempty string, which is what a
successful exchange returns), `is_logged_in` is true at every instant
strictly before `T0 + L` and false at every instant strictly after it.
The spec's concrete example (L = 3600, instants T0+3599 and T0+3601) is
the witness below. -/
theorem c2_logged_in_until_expiry (s s' : ZimbraAPISession) (T0 L : Int)
    (tokEl lifeEl : XmlElement) (t : Int)
    (htok : tokEl.text ≠ "")
    (hlife : pyInt lifeEl.text = some L)
    (hlogin : ZimbraAPISession.login s T0 (.ok [tokEl, lifeEl]) = .ok s') :
    (t < T0 + L → s'.is_logged_in t = .ok true) ∧
    (T0 + L < t → s'.is_logged_in t = .ok false) := by
  have hs' : s' = { s with authToken := some tokEl.text, end_date := some (T0 + L) } := by
    simp only [ZimbraAPISession.login, extractResponses, hlife] at hlogin
    exact (Except.ok.inj hlogin).symm
  subst hs'
  constructor
  · intro ht
    simp [ZimbraAPISession.is_logged_in, tokenFalsy, htok]
    omega
  · intro ht
    simp [ZimbraAPISession.is_logged_in, tokenFalsy, htok]
    omega

/-- Witness for `c2_logged_in_until_expiry`: login at T0 = 0 with
lifetime 3600 makes `is_logged_in` true at instant 3599 and false at
instant 3601, exactly the spec's example. -/
theorem c2_logged_in_until_expiry_witness :
    ZimbraAPISession.is_logged_in ⟨some "abc", some 3600⟩ 3599 = .ok true ∧
    ZimbraAPISession.is_logged_in ⟨some "abc", some 3600⟩ 3601 = .ok false := by
  have h1 := c2_logged_in_until_expiry ZimbraAPISession.init
      ⟨some "abc", some 3600⟩ 0 3600 { text := "abc" } { text := "3600" } 3599
      (by decide) rfl rfl
  have h2 := c2_logged_in_until_expiry ZimbraAPISession.init
      ⟨some "abc", some 3600⟩ 0 3600 { text := "abc" } { text := "3600" } 3601
      (by decide) rfl rfl
  exact ⟨h1.1 (by omega), h2.2 (by omega)⟩

/-- C1 counterexample: the claim requires the credential fragment to be
produced only while the current instant is strictly before the stored
expiry, and requires `ShouldAuthenticateFirst` in every other state. But
`is_logged_in` tests `self.end_date >= datetime.datetime.now()`, so at
the instant equal to the expiry (here now = expiry = 5, not strictly
before) `get_context_header` still succeeds instead of failing. -/
theorem c1_strict_expiry_counterexample :
    ¬ ((5 : Int) < 5) ∧
    ZimbraAPISession.get_context_header ⟨some "tok", some 5⟩ 5 =
      .ok { xmlns := "urn:zimbra", authToken := "tok",
            authTokenXsiType := "xsd:string", sessionIdXsiNull := "1" } :=
  ⟨by decide, rfl⟩

/-- C1 (amended): for every session in which a nonempty token implies an
assigned expiry (every state the API can produce), `get_context_header`
produces the fragment carrying the stored token exactly while `authToken`
holds a nonempty string and the current instant is at or before (rather
than strictly before) the stored expiry; in every other such state it
fails with `ShouldAuthenticateFirst`, and it never fails while the
condition holds. -/
theorem c1_context_header_iff_authenticated (s : ZimbraAPISession) (now : Int)
    (hwf : ∀ tok, s.authToken = some tok → tok ≠ "" → s.end_date ≠ none) :
    ((∃ tok d, s.authToken = some tok ∧ tok ≠ "" ∧ s.end_date = some d ∧ now ≤ d) →
      s.get_context_header now =
        .ok { xmlns := "urn:zimbra", authToken := s.authToken.getD "",
              authTokenXsiType := "xsd:string", sessionIdXsiNull := "1" }) ∧
    ((¬ ∃ tok d, s.authToken = some tok ∧ tok ≠ "" ∧ s.end_date = some d ∧ now ≤ d) →
      s.get_context_header now = .error .shouldAuthenticateFirst) := by
  obtain ⟨tk, ed⟩ := s
  constructor
  · rintro ⟨tok, d, h1, h2, h3, h4⟩
    simp only at h1 h3
    subst h1; subst h3
    simp [ZimbraAPISession.get_context_header, ZimbraAPISession.is_logged_in,
      tokenFalsy, h2, h4]
  · intro hne
    cases tk with
    | none =>
        simp [ZimbraAPISession.get_context_header, ZimbraAPISession.is_logged_in,
          tokenFalsy]
    | some tok =>
        by_cases htok : tok = ""
        · subst htok
          simp [ZimbraAPISession.get_context_header, ZimbraAPISession.is_logged_in,
            tokenFalsy]
        · have hed : ed ≠ none := hwf tok rfl htok
          cases ed with
          | none => exact absurd rfl hed
          | some d =>
              have hnow : ¬ now ≤ d := fun h => hne ⟨tok, d, rfl, htok, rfl, h⟩
              simp [ZimbraAPISession.get_context_header,
                ZimbraAPISession.is_logged_in, tokenFalsy, htok, hnow]

/-- Witness for `c1_context_header_iff_authenticated`: a session with
token "t" and expiry 10, inspected at instant 3, yields the fragment
carrying that token. -/
theorem c1_context_header_iff_authenticated_witness :
    ZimbraAPISession.get_context_header ⟨some "t", some 10⟩ 3 =
      .ok { xmlns := "urn:zimbra", authToken := "t",
            authTokenXsiType := "xsd:string", sessionIdXsiNull := "1" } :=
  (c1_context_header_iff_authenticated ⟨some "t", some 10⟩ 3
      (fun _ _ _ => by simp)).1
    ⟨"t", 10, rfl, by decide, rfl, by decide⟩

/-- C5: if the distribution-list description carries an id, the delete
request is issued directly with that id and no lookup is made (the call
log grows by exactly the delete request); if it carries no id, exactly
one `get_distribution_list` lookup is issued before the delete request,
and the delete request uses the id found by that lookup. -/
theorem c5_delete_dl_call_sequence (t : Transport) (c : ClientState)
    (dl : DistributionList) :
    (∀ i, dl.id = some i →
      ZimbraAdminClient.delete_distribution_list t c dl =
        (.ok (), { c with calls := c.calls ++ [.deleteDistributionList i] })) ∧
    (∀ x j, dl.id = none →
      t.oracle (.getDistributionList dl) = [x] →
      getAttr "id" x.attrs = some j →
      ZimbraAdminClient.delete_distribution_list t c dl =
        (.ok (), { c with calls :=
          c.calls ++ [.getDistributionList dl, .deleteDistributionList j] })) := by
  constructor
  · intro i hi
    simp [ZimbraAdminClient.delete_distribution_list, issue, hi]
  · intro x j hid hresp hattr
    simp [ZimbraAdminClient.delete_distribution_list,
      ZimbraAdminClient.get_distribution_list, issue, hid, hresp,
      extractSingleResponse, DistributionList.from_xml, hattr]

/-- A transport whose lookup response carries an id, for concrete runs. -/
def dlFoundTransport : Transport :=
  ⟨fun r =>
    match r with
    | .getDistributionList _ => [{ attrs := [("id", "R9"), ("name", "grp")] }]
    | _ => []⟩

/-- Witness for `c5_delete_dl_call_sequence`: deleting a description
carrying id "X1" issues only the delete request; deleting a description
carrying only a name issues the lookup and then the delete with the
looked-up id "R9". -/
theorem c5_delete_dl_call_sequence_witness :
    ZimbraAdminClient.delete_distribution_list dlFoundTransport
        ClientState.init { id := some "X1" } =
      (.ok (), { ClientState.init with calls := [.deleteDistributionList "X1"] }) ∧
    ZimbraAdminClient.delete_distribution_list dlFoundTransport
        ClientState.init { name := some "grp" } =
      (.ok (), { ClientState.init with calls :=
        [.getDistributionList { name := some "grp" },
         .deleteDistributionList "R9"] }) :=
  ⟨(c5_delete_dl_call_sequence dlFoundTransport ClientState.init
      { id := some "X1" }).1 "X1" rfl,
   (c5_delete_dl_call_sequence dlFoundTransport ClientState.init
      { name := some "grp" }).2
     { attrs := [("id", "R9"), ("name", "grp")] } "R9" rfl rfl rfl⟩

/-- C6: when the description carries no id and the lookup's result also
carries no id, `delete_distribution_list` fails with
`ValueError(\x27Unqualified DistributionList\x27)` and the call log shows the
single lookup request and no delete request. -/
theorem c6_delete_dl_unresolved (t : Transport) (c : ClientState)
    (dl : DistributionList) (x : XmlElement)
    (hid : dl.id = none)
    (hresp : t.oracle (.getDistributionList dl) = [x])
    (hnoid : getAttr "id" x.attrs = none) :
    ZimbraAdminClient.delete_distribution_list t c dl =
      (.error (.valueError "Unqualified DistributionList"),
       { c with calls := c.calls ++ [.getDistributionList dl] }) := by
  simp [ZimbraAdminClient.delete_distribution_list,
    ZimbraAdminClient.get_distribution_list, issue, hid, hresp,
    extractSingleResponse, DistributionList.from_xml, hnoid]

/-- A transport whose lookup response carries no id, for concrete runs. -/
def dlNoIdTransport : Transport :=
  ⟨fun r =>
    match r with
    | .getDistributionList _ => [{ attrs := [("name", "g")] }]
    | _ => []⟩

/-- Witness for `c6_delete_dl_unresolved`: a name-only description whose
lookup returns an element without an id yields the client-side error and
issues no delete request. -/
theorem c6_delete_dl_unresolved_witness :
    ZimbraAdminClient.delete_distribution_list dlNoIdTransport
        ClientState.init { name := some "g" } =
      (.error (.valueError "Unqualified DistributionList"),
       { ClientState.init with calls :=
         [.getDistributionList { name := some "g" }] }) :=
  c6_delete_dl_unresolved dlNoIdTransport ClientState.init { name := some "g" }
    { attrs := [("name", "g")] } rfl rfl rfl

/-- C7: for each operation expecting a single result element
(`get_account_mailbox`, `get_distribution_list`,
`create_distribution_list`, `get_mailbox_stats`), the operation fails
with the unexpected-response-shape error exactly when the response does
not contain exactly one element; on a one-element response extraction
succeeds (for `get_mailbox_stats` the subsequent integer parse may still
fail, but never with the shape error). -/
theorem c7_single_result_extraction (t : Transport) (c : ClientState)
    (accId : String) (dl : DistributionList) (nm : String) (dyn : Int) :
    ((ZimbraAdminClient.get_account_mailbox t c accId).1 =
        .error .unexpectedResponseShape ↔
      (t.oracle (.getMailbox accId)).length ≠ 1) ∧
    (∀ x, t.oracle (.getMailbox accId) = [x] →
      (ZimbraAdminClient.get_account_mailbox t c accId).1 =
        .ok (Mailbox.from_xml x)) ∧
    ((ZimbraAdminClient.get_distribution_list t c dl).1 =
        .error .unexpectedResponseShape ↔
      (t.oracle (.getDistributionList dl)).length ≠ 1) ∧
    (∀ x, t.oracle (.getDistributionList dl) = [x] →
      (ZimbraAdminClient.get_distribution_list t c dl).1 =
        .ok (DistributionList.from_xml x)) ∧
    ((ZimbraAdminClient.create_distribution_list t c nm dyn).1 =
        .error .unexpectedResponseShape ↔
      (t.oracle (.createDistributionList nm (toString dyn))).length ≠ 1) ∧
    (∀ x, t.oracle (.createDistributionList nm (toString dyn)) = [x] →
      (ZimbraAdminClient.create_distribution_list t c nm dyn).1 =
        .ok (DistributionList.from_xml x)) ∧
    ((ZimbraAdminClient.get_mailbox_stats t c).1 =
        .error .unexpectedResponseShape ↔
      (t.oracle .getMailboxStats).length ≠ 1) ∧
    (∀ x, t.oracle .getMailboxStats = [x] →
      (ZimbraAdminClient.get_mailbox_stats t c).1 ≠
        .error .unexpectedResponseShape) := by
  refine ⟨?_, ?_, ?_, ?_, ?_, ?_, ?_, ?_⟩
  · rcases hresp : t.oracle (.getMailbox accId) with _ | ⟨a, _ | ⟨b, l⟩⟩ <;>
      simp [ZimbraAdminClient.get_account_mailbox, issue, extractSingleResponse,
        hresp]
  · intro x hx
    simp [ZimbraAdminClient.get_account_mailbox, issue, extractSingleResponse, hx]
  · rcases hresp : t.oracle (.getDistributionList dl) with _ | ⟨a, _ | ⟨b, l⟩⟩ <;>
      simp [ZimbraAdminClient.get_distribution_list, issue,
        extractSingleResponse, hresp]
  · intro x hx
    simp [ZimbraAdminClient.get_distribution_list, issue, extractSingleResponse,
      hx]
  · rcases hresp : t.oracle (.createDistributionList nm (toString dyn)) with
      _ | ⟨a, _ | ⟨b, l⟩⟩ <;>
      simp [ZimbraAdminClient.create_distribution_list, issue,
        extractSingleResponse, hresp]
  · intro x hx
    simp [ZimbraAdminClient.create_distribution_list, issue,
      extractSingleResponse, hx]
  · rcases hresp : t.oracle .getMailboxStats with _ | ⟨a, _ | ⟨b, l⟩⟩ <;>
      simp [ZimbraAdminClient.get_mailbox_stats, issue, extractSingleResponse,
        hresp]
    cases hm : mapAttrsInt a.attrs <;> simp [hm]
  · intro x hx
    simp [ZimbraAdminClient.get_mailbox_stats, issue, extractSingleResponse, hx]
    cases hm : mapAttrsInt x.attrs <;> simp [hm]

/-- A transport that answers every request with the empty element list,
for concrete runs. -/
def emptyTransport : Transport := ⟨fun _ => []⟩

/-- Witness for `c7_single_result_extraction`: a zero-element response to
`GetMailboxRequest` makes `get_account_mailbox` fail with the shape
error, and a one-element lookup response makes `get_distribution_list`
succeed with the extracted record. -/
theorem c7_single_result_extraction_witness :
    (ZimbraAdminClient.get_account_mailbox emptyTransport
        ClientState.init "a1").1 = .error .unexpectedResponseShape ∧
    (ZimbraAdminClient.get_distribution_list dlFoundTransport
        ClientState.init { name := some "grp" }).1 =
      .ok { id := some "R9", name := some "grp" } :=
  ⟨(c7_single_result_extraction emptyTransport ClientState.init "a1"
      { name := some "grp" } "n" 0).1.mpr (by simp [emptyTransport]),
   (c7_single_result_extraction dlFoundTransport ClientState.init "a1"
      { name := some "grp" } "n" 0).2.2.2.1
     { attrs := [("id", "R9"), ("name", "grp")] } rfl⟩

/-- C8: list-returning operations (`get_all_domains`,
`get_all_mailboxes`) succeed with exactly one typed record per response
element, in response order (the result is the element-wise image of the
response); in particular a zero-element response yields the empty list,
not an error. -/
theorem c8_list_extraction (t : Transport) (c : ClientState) :
    (ZimbraAdminClient.get_all_domains t c).1 =
      .ok ((t.oracle .getAllDomains).map Domain.from_xml) ∧
    (ZimbraAdminClient.get_all_mailboxes t c).1 =
      .ok ((t.oracle .getAllMailboxes).map Mailbox.from_xml) :=
  ⟨rfl, rfl⟩

/-- C9: every client operation other than login leaves the session state
(`authToken` and `end_date`) unchanged: the eight operations below all
return a client whose session equals the incoming one, so only the login
exchange (ZimbraAdminClient.login / ZimbraAPISession.login) mutates it. -/
theorem c9_session_unchanged (t : Transport) (c : ClientState) (accId : String)
    (dl : DistributionList) (nm : String) (dyn : Int) (sel : XmlElement) :
    (ZimbraAdminClient.get_all_domains t c).2.session = c.session ∧
    (ZimbraAdminClient.get_mailbox_stats t c).2.session = c.session ∧
    (ZimbraAdminClient.count_account t c sel).2.session = c.session ∧
    (ZimbraAdminClient.get_all_mailboxes t c).2.session = c.session ∧
    (ZimbraAdminClient.get_account_mailbox t c accId).2.session = c.session ∧
    (ZimbraAdminClient.get_distribution_list t c dl).2.session = c.session ∧
    (ZimbraAdminClient.create_distribution_list t c nm dyn).2.session =
      c.session ∧
    (ZimbraAdminClient.delete_distribution_list t c dl).2.session = c.session := by
  refine ⟨rfl, ?_, ?_, rfl, ?_, ?_, ?_, ?_⟩
  · cases hres : extractSingleResponse (t.oracle .getMailboxStats) with
    | error e => simp [ZimbraAdminClient.get_mailbox_stats, issue, hres]
    | ok x =>
        cases hm : mapAttrsInt x.attrs <;>
          simp [ZimbraAdminClient.get_mailbox_stats, issue, hres, hm]
  · cases hm : mapCosPairs (extractResponses (t.oracle (.countAccount sel))) <;>
      simp [ZimbraAdminClient.count_account, issue, hm]
  · cases hres : extractSingleResponse (t.oracle (.getMailbox accId)) <;>
      simp [ZimbraAdminClient.get_account_mailbox, issue, hres]
  · cases hres : extractSingleResponse (t.oracle (.getDistributionList dl)) <;>
      simp [ZimbraAdminClient.get_distribution_list, issue, hres]
  · cases hres :
        extractSingleResponse (t.oracle (.createDistributionList nm (toString dyn))) <;>
      simp [ZimbraAdminClient.create_distribution_list, issue, hres]
  · cases hid : dl.id with
    | some i => simp [ZimbraAdminClient.delete_distribution_list, issue, hid]
    | none =>
        cases hres : extractSingleResponse (t.oracle (.getDistributionList dl)) with
        | error e =>
            cases e <;>
              simp [ZimbraAdminClient.delete_distribution_list,
                ZimbraAdminClient.get_distribution_list, issue, hid, hres]
        | ok x =>
            cases hfid : (DistributionList.from_xml x).id <;>
              simp [ZimbraAdminClient.delete_distribution_list,
                ZimbraAdminClient.get_distribution_list, issue, hid, hres, hfid]
